import Mathlib

/-
Verification of the b2cuserflow Terraform resource
(internal/services/b2cuserflow/userflow_resource.go).

The resource is a thin CRUD adapter over a remote msgraph client.  The
embedding below models:

  - the msgraph.B2CUserFlow entity (pointer fields become Option),
  - the schema.ResourceData handle (the locally persisted state) and the
    planned configuration,
  - the remote API client as a record of response functions (Get takes an
    invocation index so that repeated polls may observe different responses,
    and the DisableRetries flag is passed explicitly to each Get),
  - each lifecycle function as a pure function from the client and state to
    an outcome (resulting state plus optional diagnostic, or a panic) paired
    with the list of API calls that were issued.

Numbers: HTTP statuses are Nat; the float32 user-flow-type version is
modelled as Rat (no arithmetic is ever performed on it, only equality).
-/

namespace B2CUserflow

/-- HTTP 404, as net.http.StatusNotFound in the source. -/
def StatusNotFound : Nat := 404

/-- An error value returned by the remote API client. -/
structure ApiError where
  msg : String
deriving Repr, DecidableEq

/-- The msgraph.B2CUserFlow entity.  Every field is a pointer in Go, hence
an Option here; a nil pointer is none. -/
structure B2CUserFlow where
  ID : Option String
  UserFlowType : Option String
  UserFlowTypeVersion : Option Rat
  DefaultLanguageTag : Option String
  IsLanguageCustomizationEnabled : Option Bool
deriving Repr, DecidableEq

/-- The locally persisted state held by the schema.ResourceData handle:
the resource id plus one slot per schema attribute. -/
structure ResourceData where
  id : String
  object_id : String
  name : String
  user_flow_type : String
  user_flow_type_version : Rat
  default_language_tag : String
  is_language_customization_enabled : Bool
deriving Repr, DecidableEq

/-- The planned configuration for Create and Update.  d.Get in the source
reads these planned values; d.HasChange compares them with the persisted
state. -/
structure Config where
  name : String
  user_flow_type : String
  user_flow_type_version : Rat
  default_language_tag : String
  is_language_customization_enabled : Bool
deriving Repr, DecidableEq

/-- The remote API client (msgraph UserFlowClient), modelled as response
functions.  get takes the invocation index (so a poll loop can observe a
changing remote) and the current value of the DisableRetries flag. -/
structure Client where
  create : B2CUserFlow → B2CUserFlow × Nat × Option ApiError
  get : Nat → String → Bool → B2CUserFlow × Nat × Option ApiError
  update : B2CUserFlow → Nat × Option ApiError
  delete : String → Nat × Option ApiError

/-- Modelled from the spec: the diagnostic helpers tf.ErrorDiagF and
tf.ErrorDiagPathF are repository code not under src/.  The spec says every
surfaced error is annotated with the operation and identifier, so a
diagnostic is modelled as that formatted annotation string (the %q quoting
of fmt is elided). -/
structure Diag where
  summary : String
deriving Repr, DecidableEq

/-- A record of one network call issued to the remote API client.  getCall
records the value of the DisableRetries flag in effect for the call. -/
inductive ApiCall where
  | createCall (u : B2CUserFlow)
  | getCall (id : String) (disableRetries : Bool)
  | updateCall (u : B2CUserFlow)
  | deleteCall (id : String)
deriving Repr, DecidableEq

/-- The outcome of a lifecycle function: the resulting local state together
with the returned diagnostics (none = success), or a Go runtime panic. -/
inductive OpOutcome where
  | ok (d : ResourceData) (diag : Option Diag)
  | panic (msg : String)
deriving Repr, DecidableEq

/-- The Go runtime message for dereferencing a nil pointer. -/
def nilDerefMsg : String := "runtime error: invalid memory address or nil pointer dereference"

/-- b2cuserflowResourceRead.  Gets the entity by d.Id(); on a not-found
error clears the id and succeeds; on any other error returns a diagnostic
annotated with the id; on success dereferences all five pointer fields of
the response (panicking if any is nil) and copies them into state. -/
def b2cuserflowResourceRead (client : Client) (d : ResourceData) : OpOutcome × List ApiCall :=
  let objectId := d.id
  let r := client.get 0 objectId false
  let userflow := r.1
  let status := r.2.1
  let err := r.2.2
  let trace := [ApiCall.getCall objectId false]
  match err with
  | some _ =>
    if status = StatusNotFound then
      (OpOutcome.ok { d with id := "" } none, trace)
    else
      (OpOutcome.ok d (some ⟨"Retrieving userflow with object ID: " ++ objectId⟩), trace)
  | none =>
    match userflow.ID, userflow.UserFlowType, userflow.UserFlowTypeVersion,
          userflow.DefaultLanguageTag, userflow.IsLanguageCustomizationEnabled with
    | some oid, some t, some v, some tag, some b =>
      (OpOutcome.ok { d with object_id := oid, user_flow_type := t,
                             user_flow_type_version := v, default_language_tag := tag,
                             is_language_customization_enabled := b } none, trace)
    | _, _, _, _, _ => (OpOutcome.panic nilDerefMsg, trace)

/-- The entity built by b2cuserflowResourceCreate from the configuration:
every field set, with the plain (unprefixed) name as the ID. -/
def userflowFromConfig (cfg : Config) : B2CUserFlow :=
  { ID := some cfg.name
    UserFlowType := some cfg.user_flow_type
    UserFlowTypeVersion := some cfg.user_flow_type_version
    DefaultLanguageTag := some cfg.default_language_tag
    IsLanguageCustomizationEnabled := some cfg.is_language_customization_enabled }

/-- b2cuserflowResourceCreate.  Issues the creation request; on transport
error or on a response whose ID is nil or empty returns a diagnostic
without touching state; otherwise sets the id to B2C_1_ prefixed to the
name and tail-calls Read. -/
def b2cuserflowResourceCreate (client : Client) (cfg : Config) (d : ResourceData) :
    OpOutcome × List ApiCall :=
  let userflow := userflowFromConfig cfg
  let r := client.create userflow
  let userflowResp := r.1
  let err := r.2.2
  let trace := [ApiCall.createCall userflow]
  match err with
  | some _ => (OpOutcome.ok d (some ⟨"Creating userflow"⟩), trace)
  | none =>
    if userflowResp.ID = none ∨ userflowResp.ID = some ("") then
      (OpOutcome.ok d (some ⟨"Bad API Response"⟩), trace)
    else
      let d1 := { d with id := "B2C_1_" ++ cfg.name }
      let r2 := b2cuserflowResourceRead client d1
      (r2.1, trace ++ r2.2)

/-- b2cuserflowResourceUpdate.  Rejects any change to user_flow_type,
user_flow_type_version or name before touching the network; otherwise sends
an update carrying only the id and the two mutable fields, then tail-calls
Read. -/
def b2cuserflowResourceUpdate (client : Client) (cfg : Config) (d : ResourceData) :
    OpOutcome × List ApiCall :=
  if cfg.user_flow_type ≠ d.user_flow_type then
    (OpOutcome.ok d (some ⟨"Cannot update user_flow_type"⟩), [])
  else if cfg.user_flow_type_version ≠ d.user_flow_type_version then
    (OpOutcome.ok d (some ⟨"Cannot update user_flow_type_version"⟩), [])
  else if cfg.name ≠ d.name then
    (OpOutcome.ok d (some ⟨"Cannot update name"⟩), [])
  else
    let objectId := d.id
    let userflow : B2CUserFlow :=
      { ID := some objectId
        UserFlowType := none
        UserFlowTypeVersion := none
        DefaultLanguageTag := some cfg.default_language_tag
        IsLanguageCustomizationEnabled := some cfg.is_language_customization_enabled }
    let r := client.update userflow
    match r.2 with
    | some _ =>
      (OpOutcome.ok d (some ⟨"Could not update userflow with ID: " ++ d.id⟩),
       [ApiCall.updateCall userflow])
    | none =>
      let r2 := b2cuserflowResourceRead client d
      (r2.1, ApiCall.updateCall userflow :: r2.2)

/-- The probe closure passed to the deletion waiter: it sets DisableRetries
on the client and calls Get; a not-found error maps to (some false, none)
meaning gone, success maps to (some true, none) meaning still present, and
any other error is returned as (none, some e). -/
def deleteProbe (client : Client) (objectId : String) (n : Nat) :
    (Option Bool × Option ApiError) × ApiCall :=
  let r := client.get n objectId true
  let res : Option Bool × Option ApiError :=
    match r.2.2 with
    | some e => if r.2.1 = StatusNotFound then (some false, none) else (none, some e)
    | none => (some true, none)
  (res, ApiCall.getCall objectId true)

/-- Terminal result of the deletion-confirmation wait. -/
inductive WaitResult where
  | gone
  | timeout
  | probeError (e : ApiError)
deriving Repr, DecidableEq

/-- Modelled from the spec: helpers.WaitForDeletion is repository code not
under src/.  Per the spec it repeatedly invokes the probe until the probe
reports gone (success), the probe returns an error (failure), or the
deadline elapses (failure); fuel models the remaining budget of polls before
the context deadline.  The second component counts the probes performed. -/
def waitForDeletion (probe : Nat → Option Bool × Option ApiError) :
    Nat → Nat → WaitResult × Nat
  | _, 0 => (WaitResult.timeout, 0)
  | step, fuel + 1 =>
    match probe step with
    | (_, some e) => (WaitResult.probeError e, 1)
    | (some false, none) => (WaitResult.gone, 1)
    | (some true, none) =>
      let r := waitForDeletion probe (step + 1) fuel
      (r.1, r.2 + 1)
    | (none, none) =>
      let r := waitForDeletion probe (step + 1) fuel
      (r.1, r.2 + 1)

/-- b2cuserflowResourceDelete.  Issues the deletion request; a not-found
error clears the id and succeeds; any other error yields a diagnostic; on
success it runs the deletion-confirmation wait and surfaces any wait
failure annotated with the id.  Note that on the fully successful path the
function returns without modifying the local state. -/
def b2cuserflowResourceDelete (client : Client) (fuel : Nat) (d : ResourceData) :
    OpOutcome × List ApiCall :=
  let objectId := d.id
  let r := client.delete objectId
  let status := r.1
  match r.2 with
  | some _ =>
    if status = StatusNotFound then
      (OpOutcome.ok { d with id := "" } none, [ApiCall.deleteCall objectId])
    else
      (OpOutcome.ok d (some ⟨"Deleting userflow with object ID " ++ objectId⟩),
       [ApiCall.deleteCall objectId])
  | none =>
    let w := waitForDeletion (fun n => (deleteProbe client objectId n).1) 0 fuel
    let probeCalls := (List.range w.2).map (fun n => (deleteProbe client objectId n).2)
    match w.1 with
    | WaitResult.gone => (OpOutcome.ok d none, ApiCall.deleteCall objectId :: probeCalls)
    | WaitResult.timeout =>
      (OpOutcome.ok d (some ⟨"Waiting for deletion of userflow with object ID " ++ objectId⟩),
       ApiCall.deleteCall objectId :: probeCalls)
    | WaitResult.probeError _ =>
      (OpOutcome.ok d (some ⟨"Waiting for deletion of userflow with object ID " ++ objectId⟩),
       ApiCall.deleteCall objectId :: probeCalls)

/-- One hexadecimal digit, as accepted by encoding.hex. -/
def isHexDigit (c : Char) : Bool :=
  c.isDigit || (('a' ≤ c) && (c ≤ 'f')) || (('A' ≤ c) && (c ≤ 'F'))

/-- Modelled from the go-uuid library used by the importer (external
dependency, not under src/): ParseUUID succeeds exactly on strings of
length 36 with a dash at indices 8, 13, 18 and 23 and whose remaining 32
characters, gathered by the same slicing the library performs, are all hex
digits. -/
def parseUUIDOk (s : String) : Bool :=
  let l := s.data
  (l.length == 36)
  && (l.getD 8 ' ' == '-') && (l.getD 13 ' ' == '-')
  && (l.getD 18 ' ' == '-') && (l.getD 23 ' ' == '-')
  && ((l.take 8 ++ (l.drop 9).take 4 ++ (l.drop 14).take 4
       ++ (l.drop 19).take 4 ++ l.drop 24).all isHexDigit)

/-- The validation closure installed on the Importer in b2cUserflowResource:
the supplied id is accepted exactly when it parses as a UUID. -/
def importerValidationOk (id : String) : Bool := parseUUIDOk id

/-- An entity value with every pointer field nil. -/
def emptyFlow : B2CUserFlow := ⟨none, none, none, none, none⟩

/-- A fully populated entity value, as a healthy remote would return it. -/
def fullFlow : B2CUserFlow :=
  { ID := some ("obj-123")
    UserFlowType := some ("signUp")
    UserFlowTypeVersion := some 1
    DefaultLanguageTag := some ("en")
    IsLanguageCustomizationEnabled := some false }

/-- A persisted local state for a user flow named promo. -/
def promoState : ResourceData :=
  { id := "B2C_1_promo"
    object_id := ""
    name := "promo"
    user_flow_type := "signUp"
    user_flow_type_version := 1
    default_language_tag := "en"
    is_language_customization_enabled := false }

/-- The planned configuration matching promoState. -/
def promoConfig : Config :=
  { name := "promo"
    user_flow_type := "signUp"
    user_flow_type_version := 1
    default_language_tag := "en"
    is_language_customization_enabled := false }

/-- A remote on which deletion succeeds and every Get reports not-found. -/
def goneClient : Client :=
  { create := fun u => (u, 201, none)
    get := fun _ _ _ => (emptyFlow, StatusNotFound, some ⟨"not found"⟩)
    update := fun _ => (204, none)
    delete := fun _ => (204, none) }

/-- A remote on which every call succeeds and Get always finds the entity. -/
def okClient : Client :=
  { create := fun u => (u, 201, none)
    get := fun _ _ _ => (fullFlow, 200, none)
    update := fun _ => (204, none)
    delete := fun _ => (204, none) }

/-- A remote on which deletion reports not-found, as for an already absent
entity. -/
def absentClient : Client :=
  { create := fun u => (u, 201, none)
    get := fun _ _ _ => (emptyFlow, StatusNotFound, some ⟨"not found"⟩)
    update := fun _ => (204, none)
    delete := fun _ => (StatusNotFound, some ⟨"not found"⟩) }

/-- A remote on which Get fails with a non-404 server error while the other
calls succeed. -/
def errClient : Client :=
  { create := fun u => (u, 201, none)
    get := fun _ _ _ => (emptyFlow, 500, some ⟨"boom"⟩)
    update := fun _ => (204, none)
    delete := fun _ => (204, none) }

/-- A remote whose Create succeeds at the transport level but returns an
entity with no identifier. -/
def badRespClient : Client :=
  { create := fun _ => (emptyFlow, 201, none)
    get := fun _ _ _ => (fullFlow, 200, none)
    update := fun _ => (204, none)
    delete := fun _ => (204, none) }

/-- A remote whose Get succeeds but returns an entity with a nil
UserFlowType pointer. -/
def nilFieldClient : Client :=
  { create := fun u => (u, 201, none)
    get := fun _ _ _ => ({ fullFlow with UserFlowType := none }, 200, none)
    update := fun _ => (204, none)
    delete := fun _ => (204, none) }

/-- C2: if the planned user_flow_type, user_flow_type_version or name
differs from the persisted value, Update fails immediately with the
field-specific cannot-update diagnostic, issues no API call (empty trace)
and leaves the local state unchanged. -/
theorem update_immutable_guard (client : Client) (cfg : Config) (d : ResourceData) :
    (cfg.user_flow_type ≠ d.user_flow_type →
      b2cuserflowResourceUpdate client cfg d =
        (OpOutcome.ok d (some ⟨"Cannot update user_flow_type"⟩), []))
    ∧ (cfg.user_flow_type = d.user_flow_type →
       cfg.user_flow_type_version ≠ d.user_flow_type_version →
      b2cuserflowResourceUpdate client cfg d =
        (OpOutcome.ok d (some ⟨"Cannot update user_flow_type_version"⟩), []))
    ∧ (cfg.user_flow_type = d.user_flow_type →
       cfg.user_flow_type_version = d.user_flow_type_version →
       cfg.name ≠ d.name →
      b2cuserflowResourceUpdate client cfg d =
        (OpOutcome.ok d (some ⟨"Cannot update name"⟩), [])) := by
  refine ⟨fun h1 => ?_, fun h1 h2 => ?_, fun h1 h2 h3 => ?_⟩
  · simp [b2cuserflowResourceUpdate, h1]
  · simp [b2cuserflowResourceUpdate, h1, h2]
  · simp [b2cuserflowResourceUpdate, h1, h2, h3]

/-- Witness for update_immutable_guard at a configuration that changes the
user flow type. -/
theorem update_immutable_guard_witness :
    b2cuserflowResourceUpdate okClient { promoConfig with user_flow_type := "signIn" } promoState =
      (OpOutcome.ok promoState (some ⟨"Cannot update user_flow_type"⟩), []) :=
  (update_immutable_guard okClient { promoConfig with user_flow_type := "signIn" } promoState).1
    (by decide)

/-- C5: when Get fails, Read clears the id and succeeds if the status is
404, and otherwise returns the id-annotated diagnostic with the state left
unchanged. -/
theorem read_not_found_vs_error (client : Client) (d : ResourceData)
    (u : B2CUserFlow) (s : Nat) (e : ApiError)
    (h : client.get 0 d.id false = (u, s, some e)) :
    (s = StatusNotFound →
      b2cuserflowResourceRead client d =
        (OpOutcome.ok { d with id := "" } none, [ApiCall.getCall d.id false]))
    ∧ (s ≠ StatusNotFound →
      b2cuserflowResourceRead client d =
        (OpOutcome.ok d (some ⟨"Retrieving userflow with object ID: " ++ d.id⟩),
         [ApiCall.getCall d.id false])) := by
  constructor
  · intro hs; subst hs; simp [b2cuserflowResourceRead, h]
  · intro hs; simp [b2cuserflowResourceRead, h, hs]

/-- Witness for read_not_found_vs_error: the not-found branch at goneClient
and the server-error branch at errClient. -/
theorem read_not_found_vs_error_witness :
    (b2cuserflowResourceRead goneClient promoState =
      (OpOutcome.ok { promoState with id := "" } none,
       [ApiCall.getCall ("B2C_1_promo") false]))
    ∧ (b2cuserflowResourceRead errClient promoState =
      (OpOutcome.ok promoState
        (some ⟨"Retrieving userflow with object ID: B2C_1_promo"⟩),
       [ApiCall.getCall ("B2C_1_promo") false])) := by
  constructor
  · exact (read_not_found_vs_error goneClient promoState emptyFlow StatusNotFound
      ⟨"not found"⟩ rfl).1 rfl
  · exact (read_not_found_vs_error errClient promoState emptyFlow 500
      ⟨"boom"⟩ rfl).2 (by decide)

/-- C7: when the immutability guard passes, the entity handed to the remote
Update call carries exactly the id and the two mutable fields; the user
flow type and version pointers are left nil. -/
theorem update_payload_minimal (client : Client) (cfg : Config) (d : ResourceData)
    (h1 : cfg.user_flow_type = d.user_flow_type)
    (h2 : cfg.user_flow_type_version = d.user_flow_type_version)
    (h3 : cfg.name = d.name) :
    ((b2cuserflowResourceUpdate client cfg d).2).head? =
      some (ApiCall.updateCall
        { ID := some d.id
          UserFlowType := none
          UserFlowTypeVersion := none
          DefaultLanguageTag := some cfg.default_language_tag
          IsLanguageCustomizationEnabled := some cfg.is_language_customization_enabled }) := by
  cases hres : client.update
      { ID := some d.id
        UserFlowType := none
        UserFlowTypeVersion := none
        DefaultLanguageTag := some cfg.default_language_tag
        IsLanguageCustomizationEnabled := some cfg.is_language_customization_enabled } with
  | mk rs rerr =>
    cases rerr <;> simp [b2cuserflowResourceUpdate, h1, h2, h3, hres]

/-- Witness for update_payload_minimal at the promo configuration. -/
theorem update_payload_minimal_witness :
    ((b2cuserflowResourceUpdate okClient promoConfig promoState).2).head? =
      some (ApiCall.updateCall
        { ID := some ("B2C_1_promo")
          UserFlowType := none
          UserFlowTypeVersion := none
          DefaultLanguageTag := some ("en")
          IsLanguageCustomizationEnabled := some false }) :=
  update_payload_minimal okClient promoConfig promoState rfl rfl rfl

/-- Helper: the trace of a Read is always the single Get on the current id
with retries enabled. -/
theorem read_trace_single (client : Client) (d : ResourceData) :
    (b2cuserflowResourceRead client d).2 = [ApiCall.getCall d.id false] := by
  unfold b2cuserflowResourceRead
  cases h : client.get 0 d.id false with
  | mk u rest =>
    cases rest with
    | mk s err =>
      cases err with
      | none =>
        simp only []
        cases hu : u.ID <;> cases ht : u.UserFlowType <;> cases hv : u.UserFlowTypeVersion <;>
          cases hg : u.DefaultLanguageTag <;> cases hb : u.IsLanguageCustomizationEnabled <;>
          simp [h, hu, ht, hv, hg, hb]
      | some e =>
        simp only [h]
        split <;> rfl

/-- C6: when the remote Create succeeds at the transport level but the
response carries a nil or empty identifier, Create returns the bad-response
diagnostic, leaves the state (in particular the id) untouched, and performs
no Read: the trace is the single Create call. -/
theorem create_bad_response (client : Client) (cfg : Config) (d : ResourceData)
    (resp : B2CUserFlow) (s : Nat)
    (h : client.create (userflowFromConfig cfg) = (resp, s, none))
    (hbad : resp.ID = none ∨ resp.ID = some ("")) :
    b2cuserflowResourceCreate client cfg d =
      (OpOutcome.ok d (some ⟨"Bad API Response"⟩),
       [ApiCall.createCall (userflowFromConfig cfg)]) := by
  simp [b2cuserflowResourceCreate, h, hbad]

/-- Witness for create_bad_response at badRespClient, whose Create returns
an entity with no identifier. -/
theorem create_bad_response_witness :
    b2cuserflowResourceCreate badRespClient promoConfig promoState =
      (OpOutcome.ok promoState (some ⟨"Bad API Response"⟩),
       [ApiCall.createCall (userflowFromConfig promoConfig)]) :=
  create_bad_response badRespClient promoConfig promoState emptyFlow 201 rfl (Or.inl rfl)

/-- C3: when the remote Create succeeds and returns a non-empty identifier,
Create sets the local id to B2C_1_ followed by the configured name and then
immediately performs a Read on that identifier: its outcome is exactly the
outcome of Read on the updated state, and its trace is the Create call
followed by the Get on the prefixed id. -/
theorem create_sets_prefixed_id_then_reads (client : Client) (cfg : Config)
    (d : ResourceData) (resp : B2CUserFlow) (s : Nat) (i : String)
    (h : client.create (userflowFromConfig cfg) = (resp, s, none))
    (hi : resp.ID = some i) (hne : i ≠ "") :
    b2cuserflowResourceCreate client cfg d =
      ((b2cuserflowResourceRead client { d with id := "B2C_1_" ++ cfg.name }).1,
       ApiCall.createCall (userflowFromConfig cfg)
         :: [ApiCall.getCall ("B2C_1_" ++ cfg.name) false]) := by
  have htr := read_trace_single client { d with id := "B2C_1_" ++ cfg.name }
  simp only [b2cuserflowResourceCreate, h]
  simp only [hi]
  rw [if_neg]
  · simp [htr]
  · simp [hne]

/-- Witness for create_sets_prefixed_id_then_reads at okClient and the
promo configuration. -/
theorem create_sets_prefixed_id_then_reads_witness :
    b2cuserflowResourceCreate okClient promoConfig promoState =
      ((b2cuserflowResourceRead okClient { promoState with id := "B2C_1_" ++ ("promo") }).1,
       ApiCall.createCall (userflowFromConfig promoConfig)
         :: [ApiCall.getCall ("B2C_1_" ++ ("promo")) false]) :=
  create_sets_prefixed_id_then_reads okClient promoConfig promoState
    (userflowFromConfig promoConfig) 201 ("promo") rfl rfl (by decide)

/-- C10: on a successful Get, Read dereferences the five pointer fields of
the returned entity: if all five are present it succeeds and copies them
into state verbatim, and if any one of them is nil it panics rather than
returning an error. -/
theorem read_deref_totality (client : Client) (d : ResourceData)
    (u : B2CUserFlow) (s : Nat)
    (h : client.get 0 d.id false = (u, s, none)) :
    ((u.ID = none ∨ u.UserFlowType = none ∨ u.UserFlowTypeVersion = none ∨
      u.DefaultLanguageTag = none ∨ u.IsLanguageCustomizationEnabled = none) →
      (b2cuserflowResourceRead client d).1 = OpOutcome.panic nilDerefMsg)
    ∧ (∀ oid t v tag b,
        u = ⟨some oid, some t, some v, some tag, some b⟩ →
        b2cuserflowResourceRead client d =
          (OpOutcome.ok { d with object_id := oid, user_flow_type := t,
                                 user_flow_type_version := v,
                                 default_language_tag := tag,
                                 is_language_customization_enabled := b } none,
           [ApiCall.getCall d.id false])) := by
  constructor
  · intro hnil
    cases u with
    | mk f1 f2 f3 f4 f5 =>
      cases f1 <;> cases f2 <;> cases f3 <;> cases f4 <;> cases f5 <;>
        simp_all [b2cuserflowResourceRead, h]
  · intro oid t v tag b hu
    subst hu
    simp [b2cuserflowResourceRead, h]

/-- Witness for read_deref_totality: nilFieldClient returns an entity with
a nil UserFlowType and Read panics on it. -/
theorem read_deref_totality_witness :
    (b2cuserflowResourceRead nilFieldClient promoState).1 = OpOutcome.panic nilDerefMsg :=
  (read_deref_totality nilFieldClient promoState
    { fullFlow with UserFlowType := none } 200 rfl).1 (Or.inr (Or.inl rfl))

/-- C8: the deletion-confirmation probe issues its Get with the
DisableRetries flag set, maps a not-found Get error to (some false, none)
meaning gone, maps any other Get error to (none, some e) verbatim, maps a
successful Get to (some true, none) meaning still present, and a probe
error ends the wait immediately with that error. -/
theorem delete_probe_semantics (client : Client) (id : String) (n : Nat) :
    ((deleteProbe client id n).2 = ApiCall.getCall id true)
    ∧ (∀ u s e, client.get n id true = (u, s, some e) → s = StatusNotFound →
        (deleteProbe client id n).1 = (some false, none))
    ∧ (∀ u s e, client.get n id true = (u, s, some e) → s ≠ StatusNotFound →
        (deleteProbe client id n).1 = (none, some e))
    ∧ (∀ u s, client.get n id true = (u, s, none) →
        (deleteProbe client id n).1 = (some true, none))
    ∧ (∀ e fuel, (deleteProbe client id n).1 = (none, some e) →
        waitForDeletion (fun k => (deleteProbe client id k).1) n (fuel + 1) =
          (WaitResult.probeError e, 1)) := by
  refine ⟨rfl, ?_, ?_, ?_, ?_⟩
  · intro u s e h hs; subst hs; simp [deleteProbe, h]
  · intro u s e h hs; simp [deleteProbe, h, hs]
  · intro u s h; simp [deleteProbe, h]
  · intro e fuel h; simp [waitForDeletion, h]

/-- Witness for delete_probe_semantics: at errClient the probe call carries
the DisableRetries flag and its server error ends the wait at once. -/
theorem delete_probe_semantics_witness :
    (deleteProbe errClient ("B2C_1_promo") 0).2 = ApiCall.getCall ("B2C_1_promo") true
    ∧ waitForDeletion (fun k => (deleteProbe errClient ("B2C_1_promo") k).1) 0 (4 + 1) =
        (WaitResult.probeError ⟨"boom"⟩, 1) :=
  ⟨(delete_probe_semantics errClient ("B2C_1_promo") 0).1,
   (delete_probe_semantics errClient ("B2C_1_promo") 0).2.2.2.2 ⟨"boom"⟩ 4 rfl⟩

/-- C9: when the deletion request succeeds but the confirmation wait ends
in timeout or in a probe error, Delete returns the failure as a diagnostic
annotated with the identifier and leaves the local state (in particular the
id) exactly as it was. -/
theorem delete_wait_failure_surfaced (client : Client) (fuel : Nat) (d : ResourceData)
    (s : Nat) (hdel : client.delete d.id = (s, none)) :
    ((waitForDeletion (fun n => (deleteProbe client d.id n).1) 0 fuel).1 = WaitResult.timeout →
      (b2cuserflowResourceDelete client fuel d).1 =
        OpOutcome.ok d (some ⟨"Waiting for deletion of userflow with object ID " ++ d.id⟩))
    ∧ (∀ e,
        (waitForDeletion (fun n => (deleteProbe client d.id n).1) 0 fuel).1 =
          WaitResult.probeError e →
      (b2cuserflowResourceDelete client fuel d).1 =
        OpOutcome.ok d (some ⟨"Waiting for deletion of userflow with object ID " ++ d.id⟩)) := by
  constructor
  · intro hw; simp [b2cuserflowResourceDelete, hdel, hw]
  · intro e hw; simp [b2cuserflowResourceDelete, hdel, hw]

/-- Witness for delete_wait_failure_surfaced: at okClient the entity never
disappears, the wait times out after the fuel is spent, and Delete surfaces
the failure with the state untouched. -/
theorem delete_wait_failure_surfaced_witness :
    (b2cuserflowResourceDelete okClient 2 promoState).1 =
      OpOutcome.ok promoState
        (some ⟨"Waiting for deletion of userflow with object ID " ++ promoState.id⟩) :=
  (delete_wait_failure_surfaced okClient 2 promoState 204 rfl).1 rfl

/-- C1 counterexample: at goneClient the deletion request succeeds and the
first probe confirms absence, yet Delete returns success with the local
state untouched: the id is still B2C_1_promo, not the empty string the
claim requires for this terminal case. -/
theorem delete_success_keeps_id_counterexample :
    (b2cuserflowResourceDelete goneClient 5 promoState).1 = OpOutcome.ok promoState none
    ∧ promoState.id = "B2C_1_promo" :=
  ⟨rfl, rfl⟩

/-- C1 amended: Delete returns success in both terminal non-error cases; in
the already-absent case it also clears the id and never invokes the waiter
(the trace is the lone Delete call), while in the successful-deletion case
whose poll confirms absence it returns success leaving the local state
unmodified (clearing is left to the runtime). -/
theorem delete_terminal_cases (client : Client) (fuel : Nat) (d : ResourceData) :
    (∀ s e, client.delete d.id = (s, some e) → s = StatusNotFound →
      b2cuserflowResourceDelete client fuel d =
        (OpOutcome.ok { d with id := "" } none, [ApiCall.deleteCall d.id]))
    ∧ (∀ s, client.delete d.id = (s, none) →
        (waitForDeletion (fun n => (deleteProbe client d.id n).1) 0 fuel).1 = WaitResult.gone →
      (b2cuserflowResourceDelete client fuel d).1 = OpOutcome.ok d none) := by
  constructor
  · intro s e h hs; subst hs; simp [b2cuserflowResourceDelete, h]
  · intro s h hw; simp [b2cuserflowResourceDelete, h, hw]

/-- Witness for delete_terminal_cases: the already-absent branch at
absentClient and the confirmed-deletion branch at goneClient. -/
theorem delete_terminal_cases_witness :
    b2cuserflowResourceDelete absentClient 5 promoState =
      (OpOutcome.ok { promoState with id := "" } none, [ApiCall.deleteCall ("B2C_1_promo")])
    ∧ (b2cuserflowResourceDelete goneClient 5 promoState).1 = OpOutcome.ok promoState none :=
  ⟨(delete_terminal_cases absentClient 5 promoState).1 StatusNotFound ⟨"not found"⟩ rfl rfl,
   (delete_terminal_cases goneClient 5 promoState).2 204 rfl rfl⟩

/-- Helper for the importer claim: a character list starting with the six
characters of the B2C_1_ id marker contains an underscore, so it can never
be all hex digits. -/
theorem all_hex_false_of_underscore (l2 : List Char) :
    (('B' :: '2' :: 'C' :: '_' :: '1' :: '_' :: l2).all isHexDigit) = false := by
  have h : isHexDigit '_' = false := by decide
  simp [List.all_cons, h]

/-- Helper for the importer claim: no string of the form B2C_1_ followed by
a name parses as a UUID, because its fourth character is an underscore,
which the hex check rejects. -/
theorem created_id_never_uuid (name : String) :
    parseUUIDOk ("B2C_1_" ++ name) = false := by
  have hdata : ("B2C_1_" ++ name).data = 'B' :: '2' :: 'C' :: '_' :: '1' :: '_' :: name.data :=
    rfl
  have htake : ('B' :: '2' :: 'C' :: '_' :: '1' :: '_' :: name.data).take 8
      = 'B' :: '2' :: 'C' :: '_' :: '1' :: '_' :: name.data.take 2 := rfl
  simp [parseUUIDOk, hdata, htake, List.all_append, all_hex_false_of_underscore]
  intro _ _ _ _ _ _ _ _ h
  exact absurd h (by decide)

/-- C4: the importer validation accepts exactly the strings the UUID parser
accepts (and does accept a genuine UUID), yet every identifier Create
produces, B2C_1_ followed by the name, is rejected by it. -/
theorem importer_uuid_only_rejects_created_ids :
    (∀ id, importerValidationOk id = parseUUIDOk id)
    ∧ importerValidationOk ("12345678-1234-1234-1234-123456789abc") = true
    ∧ (∀ name, importerValidationOk ("B2C_1_" ++ name) = false) :=
  ⟨fun _ => rfl, by decide, fun name => created_id_never_uuid name⟩

end B2CUserflow
